import Mathlib

/-!
Shallow embedding of `src/scientific_method.py`: the `ScientificMethod` class
(its stage methods `observe`, `hypothesize`, `predict`, `experiment`,
`generate_experimental_data`, `analyze`, `conclude`), the driver
`run_full_method`, the `save_results` export, and the CLI entry point `main`
with its question resolution.  The external completion service (the OpenAI
client) is modelled as a function from prompt to either a response text or an
error; the transcript log is the list of messages passed to `log_and_print`,
and the calls trace records the prompt of every request issued.
-/

namespace SciMethod

/-- An exception raised by the external completion service during a call. -/
structure Err where
  msg : String
deriving Repr, DecidableEq

/-- The external completion service: one blocking request, prompt in, text
out, or an exception.  Both call shapes used by the source
(`client.responses.create` with web search for step 1, and
`client.chat.completions.create` for the rest) are modelled by one function. -/
def Oracle : Type := String → Except Err String

/-- `self.results`: the Investigation Record, a mapping with eight fixed keys,
each either `None` or the text returned by the service (source lines 35-44). -/
structure Results where
  question : Option String
  observations : Option String
  hypothesis : Option String
  predictions : Option String
  experiments : Option String
  experimental_data : Option String
  analysis : Option String
  conclusion : Option String
deriving Repr, DecidableEq

/-- The record as initialised in `__init__`: every key `None`. -/
def initResults : Results :=
  ⟨none, none, none, none, none, none, none, none⟩

/-- Python f-string rendering of a record field: `None` prints as "None". -/
def pyStr : Option String → String
  | none => "None"
  | some s => s

/-- The prompt built by `observe` (source lines 64-71). -/
def observePrompt (question : String) : String :=
  "You are a scientist beginning an investigation.\n\nQuestion: \n" ++ question ++
  "\n\nProvide initial observations and context relevant to this question.\nInclude known facts, background information, and what we already know about this topic.\nBe concise but thorough."

/-- The prompt built by `hypothesize` (source lines 86-99). -/
def hypothesizePrompt (r : Results) : String :=
  "Based on the following question and observations, formulate a clear, testable hypothesis.\n\nQuestion: \n" ++
  pyStr r.question ++ "\n\nObservations:\n" ++ pyStr r.observations ++
  "\n\nProvide a specific hypothesis that:\n1. Is falsifiable\n2. Makes a clear prediction\n3. Can be tested through experimentation or further observation\n\nFormat your response as a single clear hypothesis statement."

/-- The prompt built by `predict` (source lines 113-127). -/
def predictPrompt (r : Results) : String :=
  "Given this hypothesis, what specific, testable predictions can we make?\n\nQuestion: \n" ++
  pyStr r.question ++ "\n\nHypothesis: \n" ++ pyStr r.hypothesis ++
  "\n\nGenerate 3-5 specific predictions that would support or refute this hypothesis.\nEach prediction should be:\n1. Specific and measurable\n2. Directly testable\n3. Clearly linked to the hypothesis\n\nFormat as a numbered list."

/-- The prompt built by `experiment` (source lines 141-158). -/
def experimentPrompt (r : Results) : String :=
  "Design experiments to test these predictions.\n\nQuestion: \n" ++
  pyStr r.question ++ "\n\nHypothesis: \n" ++ pyStr r.hypothesis ++
  "\n\nPredictions:\n" ++ pyStr r.predictions ++
  "\n\nFor each prediction, describe:\n1. The experimental method\n2. What data to collect\n3. How to control variables\n4. Expected outcomes if hypothesis is correct vs. incorrect\n\nBe specific and practical."

/-- The prompt built by `generate_experimental_data` (source lines 172-193). -/
def generateDataPrompt (r : Results) : String :=
  "You are conducting the following experiments. Generate realistic simulated experimental data.\n\nQuestion: \n" ++
  pyStr r.question ++ "\n\nHypothesis: \n" ++ pyStr r.hypothesis ++
  "\n\nPredictions:\n" ++ pyStr r.predictions ++
  "\n\nExperimental Design:\n" ++ pyStr r.experiments ++
  "\n\nGenerate realistic experimental data that would result from conducting these experiments.\nInclude:\n1. Quantitative measurements (with realistic variability)\n2. Observations\n3. Data tables or results summaries\n4. Any unexpected findings or anomalies\n\nMake the data realistic and internally consistent. Format it clearly."

/-- The fixed text used by `analyze` when no experimental data is available
(source line 211). -/
def noDataPlaceholder : String :=
  "\nNote: No experimental data available. Provide theoretical analysis."

/-- `data_context` in `analyze` (source lines 207-211): Python truthiness, so
both a missing key and an empty string select the placeholder. -/
def dataContext (r : Results) : String :=
  match r.experimental_data with
  | some d => if d = "" then noDataPlaceholder else "\nExperimental Results:\n" ++ d
  | none => noDataPlaceholder

/-- The prompt built by `analyze` (source lines 213-232). -/
def analyzePrompt (r : Results) : String :=
  "Analyze the experimental approach and draw conclusions.\n\nQuestion: \n" ++
  pyStr r.question ++ "\n\nHypothesis: \n" ++ pyStr r.hypothesis ++
  "\n\nPredictions:\n" ++ pyStr r.predictions ++
  "\n\nExperimental Design:\n" ++ pyStr r.experiments ++ "\n" ++ dataContext r ++
  "\n\nProvide:\n1. Analysis of how the experiments would test the hypothesis\n2. What results would support vs. refute the hypothesis\n3. Potential limitations or sources of error\n4. Suggestions for follow-up investigations"

/-- The prompt built by `conclude` (source lines 246-263). -/
def concludePrompt (r : Results) : String :=
  "Synthesize the entire scientific investigation into a conclusion.\n\nQuestion: \n" ++
  pyStr r.question ++ "\n\nHypothesis: \n" ++ pyStr r.hypothesis ++
  "\n\nAnalysis: \n" ++ pyStr r.analysis ++
  "\n\nProvide:\n1. Whether the hypothesis is supported, refuted, or requires modification\n2. Key findings and insights\n3. Implications of the results\n4. Next steps for further research\n\nBe clear and concise."

/-- Step 1 `observe` (source lines 55-80): stores the question, issues the
search-augmented call, and on success stores the response under
`observations`.  The result is the record as the method leaves it, the prompt
that was sent, and the returned text or the propagated exception.  Note that
`self.results["question"]` is assigned before the external call, so it is set
even when the call raises. -/
def observe (o : Oracle) (r : Results) (question : String) :
    Results × String × Except Err String :=
  let r1 : Results := { r with question := some question }
  let p := observePrompt question
  match o p with
  | .ok t => ({ r1 with observations := some t }, p, .ok t)
  | .error e => (r1, p, .error e)

/-- Step 2 `hypothesize` (source lines 82-107). -/
def hypothesize (o : Oracle) (r : Results) : Results × String × Except Err String :=
  let p := hypothesizePrompt r
  match o p with
  | .ok t => ({ r with hypothesis := some t }, p, .ok t)
  | .error e => (r, p, .error e)

/-- Step 3 `predict` (source lines 109-135). -/
def predict (o : Oracle) (r : Results) : Results × String × Except Err String :=
  let p := predictPrompt r
  match o p with
  | .ok t => ({ r with predictions := some t }, p, .ok t)
  | .error e => (r, p, .error e)

/-- Step 4 `experiment` (source lines 137-166). -/
def experiment (o : Oracle) (r : Results) : Results × String × Except Err String :=
  let p := experimentPrompt r
  match o p with
  | .ok t => ({ r with experiments := some t }, p, .ok t)
  | .error e => (r, p, .error e)

/-- Step 4b `generate_experimental_data` (source lines 168-201). -/
def generate_experimental_data (o : Oracle) (r : Results) :
    Results × String × Except Err String :=
  let p := generateDataPrompt r
  match o p with
  | .ok t => ({ r with experimental_data := some t }, p, .ok t)
  | .error e => (r, p, .error e)

/-- Step 5 `analyze` (source lines 203-240). -/
def analyze (o : Oracle) (r : Results) : Results × String × Except Err String :=
  let p := analyzePrompt r
  match o p with
  | .ok t => ({ r with analysis := some t }, p, .ok t)
  | .error e => (r, p, .error e)

/-- Step 6 `conclude` (source lines 242-271). -/
def conclude (o : Oracle) (r : Results) : Results × String × Except Err String :=
  let p := concludePrompt r
  match o p with
  | .ok t => ({ r with conclusion := some t }, p, .ok t)
  | .error e => (r, p, .error e)

/-- The `-` times 80 separator printed after steps 1 to 5. -/
def dashSep : String :=
  String.mk (List.replicate 80 '-')

/-- The `=` times 80 separator printed after step 6. -/
def eqSep : String :=
  String.mk (List.replicate 80 '=')

/-- The observable state of one run: the record `self.results`, the transcript
log (the messages passed to `log_and_print`, in order), the prompts of the
external calls issued so far, and the pending exception, if any. -/
structure RunState where
  record : Results
  log : List String
  calls : List String
  err : Option Err
deriving Repr, DecidableEq

/-- One stage of `run_full_method`: the header line logged before the call,
the separator logged after it, and the stage method itself. -/
structure Stage where
  header : String
  sep : String
  method : Results → Results × String × Except Err String

/-- Executing one stage of `run_full_method`: if an exception is already
propagating nothing more runs; otherwise the header is logged, the stage
method is called, and on success its output and the separator are logged.  On
failure the exception starts propagating with the record as the method left
it, the header already logged, and the failing call recorded. -/
def stageStep (st : RunState) (sg : Stage) : RunState :=
  match st.err with
  | some _ => st
  | none =>
    match sg.method st.record with
    | (r', p, .ok t) =>
        ⟨r', st.log ++ [sg.header, "\n" ++ t ++ "\n", sg.sep], st.calls ++ [p], none⟩
    | (r', p, .error e) =>
        ⟨r', st.log ++ [sg.header], st.calls ++ [p], some e⟩

/-- The stages of `run_full_method` in source order (lines 286-320); step 4b
is present exactly when `generate_data` is true (line 306). -/
def stagesList (o : Oracle) (q : String) (gd : Bool) : List Stage :=
  [⟨"Step 1: Gathering observations...", dashSep, fun r => observe o r q⟩,
   ⟨"\nStep 2: Formulating hypothesis...", dashSep, hypothesize o⟩,
   ⟨"\nStep 3: Generating predictions...", dashSep, predict o⟩,
   ⟨"\nStep 4: Designing experiments...", dashSep, experiment o⟩]
  ++ (if gd then
        [⟨"\nStep 4b: Generating experimental data...", dashSep,
          generate_experimental_data o⟩]
      else [])
  ++ [⟨"\nStep 5: Analyzing results...", dashSep, analyze o⟩,
      ⟨"\nStep 6: Drawing conclusions...", eqSep, conclude o⟩]

/-- The run state at the top of `run_full_method`, after logging the question
line (source line 284): the record is fresh from `__init__`. -/
def initState (q : String) : RunState :=
  ⟨initResults, ["Question: " ++ q ++ "\n"], [], none⟩

/-- `run_full_method` (source lines 273-322): the six or seven stages executed
in order against a freshly initialised record, stopping at the first
propagating exception. -/
def run_full_method (o : Oracle) (q : String) (gd : Bool) : RunState :=
  (stagesList o q gd).foldl stageStep (initState q)

/-- The key/value mapping serialised by `save_results` (source lines 324-328,
`json.dump(self.results, ...)`), keys in insertion order. -/
def exportPairs (r : Results) : List (String × Option String) :=
  [("question", r.question), ("observations", r.observations),
   ("hypothesis", r.hypothesis), ("predictions", r.predictions),
   ("experiments", r.experiments), ("experimental_data", r.experimental_data),
   ("analysis", r.analysis), ("conclusion", r.conclusion)]

/-- Source line 20: `env_question = os.getenv(SCIENTIFIC_METHOD_QUESTION,
"Does rapamycin increase lifespan?")`, a hard-coded default when the
environment variable is absent. -/
def env_question (envVar : Option String) : String :=
  envVar.getD "Does rapamycin increase lifespan?"

/-- Python `a or b` where `a` is an optional string and `b` a string: `a` wins
exactly when it is truthy (present and non-empty). -/
def pyOr (a : Option String) (b : String) : String :=
  match a with
  | none => b
  | some s => if s = "" then b else s

/-- Python truthiness of an optional string: `None` and the empty string are
falsy. -/
def pyTruthy : Option String → Bool
  | none => false
  | some s => !(s == "")

/-- Source line 366: `question = args.question_flag or args.question or
env_question` -- flag, then positional, then the environment fallback. -/
def resolveQuestion (flag positional envVar : Option String) : String :=
  pyOr flag (pyOr positional (env_question envVar))

/-- `__init__` credential resolution (source lines 26-27): an explicitly
passed key wins, otherwise `os.getenv(OPENAI_API_KEY)`; the result is handed
to the client constructor unchecked. -/
def initApiKey (apiKeyArg envKey : Option String) : Option String :=
  match apiKeyArg with
  | none => envKey
  | some k => some k

/-- Outcome of `main` (source lines 331-381): either `parser.error` fired (a
usage message, process exits, nothing else runs), or the pipeline ran with
the client credential that `__init__` resolved. -/
inductive MainOutcome where
  | usage : MainOutcome
  | ran : Option String → RunState → MainOutcome
deriving Repr, DecidableEq

/-- `main` (source lines 363-381): resolve the question, exit with a usage
error when it is falsy, otherwise construct the client and run the full
method. -/
def main (flag positional envVar envKey : Option String) (gd : Bool) (o : Oracle) :
    MainOutcome :=
  let q := resolveQuestion flag positional envVar
  if q = "" then MainOutcome.usage
  else MainOutcome.ran (initApiKey none envKey) (run_full_method o q gd)

/-- The prompts of the external calls an outcome of `main` issued. -/
def callsOf : MainOutcome → List String
  | MainOutcome.usage => []
  | MainOutcome.ran _ st => st.calls

/-- The credential the constructed client received, when `main` got that far. -/
def ranKey : MainOutcome → Option (Option String)
  | MainOutcome.usage => none
  | MainOutcome.ran k _ => some k

/-- The seven stage header lines that `run_full_method` can log. -/
def headerStrings : List String :=
  ["Step 1: Gathering observations...",
   "\nStep 2: Formulating hypothesis...",
   "\nStep 3: Generating predictions...",
   "\nStep 4: Designing experiments...",
   "\nStep 4b: Generating experimental data...",
   "\nStep 5: Analyzing results...",
   "\nStep 6: Drawing conclusions..."]

/-- Whether a transcript entry is one of the stage headers. -/
def isStageHeader (s : String) : Bool := decide (s ∈ headerStrings)

/-- `s` occurs verbatim inside `t`. -/
def Substr (s t : String) : Prop := ∃ a b : String, t = a ++ s ++ b

/-- A completion service that always answers "R"; used for concrete runs. -/
def okOracle : Oracle := fun _ => Except.ok "R"

/-- A completion service that answers the observation query for question "Q"
and fails every other call; used to exercise a failure at step 2. -/
def failAfterObserve : Oracle := fun p =>
  if p = observePrompt "Q" then Except.ok "OBS" else Except.error ⟨"boom"⟩

lemma str_append_empty (s : String) : s ++ "" = s := by
  apply String.ext
  simp [String.data_append]

/-- The part of the analyze prompt after the data context. -/
def analyzeTail : String :=
  "\n\nProvide:\n1. Analysis of how the experiments would test the hypothesis\n2. What results would support vs. refute the hypothesis\n3. Potential limitations or sources of error\n4. Suggestions for follow-up investigations"

/-- The part of the analyze prompt before the data context. -/
def analyzeHead (r : Results) : String :=
  "Analyze the experimental approach and draw conclusions.\n\nQuestion: \n" ++
  pyStr r.question ++ "\n\nHypothesis: \n" ++ pyStr r.hypothesis ++
  "\n\nPredictions:\n" ++ pyStr r.predictions ++
  "\n\nExperimental Design:\n" ++ pyStr r.experiments ++ "\n"

lemma analyzePrompt_eq (r : Results) :
    analyzePrompt r = analyzeHead r ++ dataContext r ++ analyzeTail := rfl

lemma observe_ok (o : Oracle) (r : Results) (q t : String)
    (h : o (observePrompt q) = Except.ok t) :
    observe o r q =
      ({ r with question := some q, observations := some t }, observePrompt q,
        Except.ok t) := by
  simp [observe, h]

lemma hypothesize_ok (o : Oracle) (r : Results) (t : String)
    (h : o (hypothesizePrompt r) = Except.ok t) :
    hypothesize o r =
      ({ r with hypothesis := some t }, hypothesizePrompt r, Except.ok t) := by
  simp [hypothesize, h]

lemma conclude_ok (o : Oracle) (r : Results) (t : String)
    (h : o (concludePrompt r) = Except.ok t) :
    conclude o r =
      ({ r with conclusion := some t }, concludePrompt r, Except.ok t) := by
  simp [conclude, h]

lemma append_nl_getLast (a : String) :
    (a ++ "\n").data.getLast? = some '\n' := by
  have h : (a ++ "\n").data = a.data ++ ['\n'] := String.data_append a "\n"
  rw [h, List.getLast?_append_cons]
  rfl

/-- A transcript entry that ends in a newline (the question line and the
stage outputs) can never be one of the stage header lines, which all end in
a dot. -/
lemma isStageHeader_ends_nl (a : String) :
    isStageHeader (a ++ "\n") = false := by
  have hlast := append_nl_getLast a
  simp only [isStageHeader, decide_eq_false_iff_not]
  intro hmem
  simp only [headerStrings, List.mem_cons, List.not_mem_nil, or_false] at hmem
  rcases hmem with h | h | h | h | h | h | h <;>
    rw [h] at hlast <;> exact absurd hlast (by decide)

lemma isStageHeader_dash : isStageHeader dashSep = false := by decide

lemma isStageHeader_eqSep : isStageHeader eqSep = false := by decide

lemma isStageHeader_h1 : isStageHeader "Step 1: Gathering observations..." = true := by
  decide

lemma isStageHeader_h2 : isStageHeader "\nStep 2: Formulating hypothesis..." = true := by
  decide

lemma isStageHeader_h3 : isStageHeader "\nStep 3: Generating predictions..." = true := by
  decide

lemma isStageHeader_h4 : isStageHeader "\nStep 4: Designing experiments..." = true := by
  decide

lemma isStageHeader_h5 : isStageHeader "\nStep 5: Analyzing results..." = true := by
  decide

lemma isStageHeader_h6 : isStageHeader "\nStep 6: Drawing conclusions..." = true := by
  decide

lemma stageStep_frozen (st : RunState) (sg : Stage) (e : Err) (h : st.err = some e) :
    stageStep st sg = st := by
  simp [stageStep, h]

lemma foldl_frozen (l : List Stage) (st : RunState) (e : Err) (h : st.err = some e) :
    l.foldl stageStep st = st := by
  induction l with
  | nil => rfl
  | cons sg l ih => rw [List.foldl_cons, stageStep_frozen st sg e h, ih]

/-- Where a fold of stages ends with a propagating exception, it splits into a
successful prefix, the failing stage, and a suffix that never ran: the final
state is the prefix state with the failing stage's mutated record, its header
appended to the log, and its prompt appended to the calls. -/
lemma foldl_err_split (l : List Stage) (st0 : RunState) (e : Err)
    (h0 : st0.err = none) (h : (l.foldl stageStep st0).err = some e) :
    ∃ l1 sg l2, l = l1 ++ sg :: l2 ∧
      (l1.foldl stageStep st0).err = none ∧
      (sg.method (l1.foldl stageStep st0).record).2.2 = Except.error e ∧
      l.foldl stageStep st0 =
        ⟨(sg.method (l1.foldl stageStep st0).record).1,
         (l1.foldl stageStep st0).log ++ [sg.header],
         (l1.foldl stageStep st0).calls ++
           [(sg.method (l1.foldl stageStep st0).record).2.1],
         some e⟩ := by
  induction l generalizing st0 with
  | nil =>
      rw [List.foldl_nil] at h
      rw [h0] at h
      exact absurd h (by simp)
  | cons sg l ih =>
      rcases hm : sg.method st0.record with ⟨r', p, res⟩
      cases res with
      | ok t =>
          have hstep : stageStep st0 sg =
              ⟨r', st0.log ++ [sg.header, "\n" ++ t ++ "\n", sg.sep],
               st0.calls ++ [p], none⟩ := by
            simp [stageStep, h0, hm]
          rw [List.foldl_cons, hstep] at h
          obtain ⟨l1, sg', l2, hl, h1, h2, h3⟩ := ih _ rfl h
          refine ⟨sg :: l1, sg', l2, ?_, ?_, ?_, ?_⟩ <;>
            simp only [List.foldl_cons, hstep, List.cons_append]
          · rw [hl]
          · exact h1
          · exact h2
          · exact h3
      | error e' =>
          have hstep : stageStep st0 sg =
              ⟨r', st0.log ++ [sg.header], st0.calls ++ [p], some e'⟩ := by
            simp [stageStep, h0, hm]
          rw [List.foldl_cons, hstep, foldl_frozen l _ e' rfl] at h
          have he : e' = e := by simpa using h
          subst he
          refine ⟨[], sg, l, rfl, h0, ?_, ?_⟩
          · rw [List.foldl_nil, hm]
          · rw [List.foldl_cons, hstep, foldl_frozen l _ e' rfl, List.foldl_nil, hm]

set_option maxHeartbeats 1000000 in
/-- A run with data generation disabled that reaches the end: every stage
succeeded in order, producing this record, transcript and call trace. -/
lemma run_ok_false (o : Oracle) (q : String)
    (h : (run_full_method o q false).err = none) :
    ∃ t1 t2 t3 t4 t5 t6 : String,
      run_full_method o q false =
        ⟨⟨some q, some t1, some t2, some t3, some t4, none, some t5, some t6⟩,
         ["Question: " ++ q ++ "\n",
          "Step 1: Gathering observations...", "\n" ++ t1 ++ "\n", dashSep,
          "\nStep 2: Formulating hypothesis...", "\n" ++ t2 ++ "\n", dashSep,
          "\nStep 3: Generating predictions...", "\n" ++ t3 ++ "\n", dashSep,
          "\nStep 4: Designing experiments...", "\n" ++ t4 ++ "\n", dashSep,
          "\nStep 5: Analyzing results...", "\n" ++ t5 ++ "\n", dashSep,
          "\nStep 6: Drawing conclusions...", "\n" ++ t6 ++ "\n", eqSep],
         [observePrompt q,
          hypothesizePrompt ⟨some q, some t1, none, none, none, none, none, none⟩,
          predictPrompt ⟨some q, some t1, some t2, none, none, none, none, none⟩,
          experimentPrompt ⟨some q, some t1, some t2, some t3, none, none, none, none⟩,
          analyzePrompt ⟨some q, some t1, some t2, some t3, some t4, none, none, none⟩,
          concludePrompt ⟨some q, some t1, some t2, some t3, some t4, none, some t5, none⟩],
         none⟩ := by
  cases e1 : o (observePrompt q) with
  | error e =>
      simp [run_full_method, stagesList, initState, initResults, List.foldl,
        stageStep, observe, hypothesize, predict, experiment, analyze, conclude, e1] at h
  | ok t1 =>
  cases e2 : o (hypothesizePrompt ⟨some q, some t1, none, none, none, none, none, none⟩) with
  | error e =>
      simp [run_full_method, stagesList, initState, initResults, List.foldl,
        stageStep, observe, hypothesize, predict, experiment, analyze, conclude, e1, e2] at h
  | ok t2 =>
  cases e3 : o (predictPrompt ⟨some q, some t1, some t2, none, none, none, none, none⟩) with
  | error e =>
      simp [run_full_method, stagesList, initState, initResults, List.foldl,
        stageStep, observe, hypothesize, predict, experiment, analyze, conclude, e1, e2, e3] at h
  | ok t3 =>
  cases e4 : o (experimentPrompt ⟨some q, some t1, some t2, some t3, none, none, none, none⟩) with
  | error e =>
      simp [run_full_method, stagesList, initState, initResults, List.foldl,
        stageStep, observe, hypothesize, predict, experiment, analyze, conclude, e1, e2, e3, e4] at h
  | ok t4 =>
  cases e5 : o (analyzePrompt ⟨some q, some t1, some t2, some t3, some t4, none, none, none⟩) with
  | error e =>
      simp [run_full_method, stagesList, initState, initResults, List.foldl,
        stageStep, observe, hypothesize, predict, experiment, analyze, conclude, e1, e2, e3, e4, e5] at h
  | ok t5 =>
  cases e6 : o (concludePrompt ⟨some q, some t1, some t2, some t3, some t4, none, some t5, none⟩) with
  | error e =>
      simp [run_full_method, stagesList, initState, initResults, List.foldl,
        stageStep, observe, hypothesize, predict, experiment, analyze, conclude, e1, e2, e3, e4, e5, e6] at h
  | ok t6 =>
      refine ⟨t1, t2, t3, t4, t5, t6, ?_⟩
      simp [run_full_method, stagesList, initState, initResults, List.foldl,
        stageStep, observe, hypothesize, predict, experiment, analyze, conclude,
        e1, e2, e3, e4, e5, e6]

set_option maxHeartbeats 1000000 in
/-- A run with data generation enabled that reaches the end: every stage
including step 4b succeeded in order. -/
lemma run_ok_true (o : Oracle) (q : String)
    (h : (run_full_method o q true).err = none) :
    ∃ t1 t2 t3 t4 td t5 t6 : String,
      run_full_method o q true =
        ⟨⟨some q, some t1, some t2, some t3, some t4, some td, some t5, some t6⟩,
         ["Question: " ++ q ++ "\n",
          "Step 1: Gathering observations...", "\n" ++ t1 ++ "\n", dashSep,
          "\nStep 2: Formulating hypothesis...", "\n" ++ t2 ++ "\n", dashSep,
          "\nStep 3: Generating predictions...", "\n" ++ t3 ++ "\n", dashSep,
          "\nStep 4: Designing experiments...", "\n" ++ t4 ++ "\n", dashSep,
          "\nStep 4b: Generating experimental data...", "\n" ++ td ++ "\n", dashSep,
          "\nStep 5: Analyzing results...", "\n" ++ t5 ++ "\n", dashSep,
          "\nStep 6: Drawing conclusions...", "\n" ++ t6 ++ "\n", eqSep],
         [observePrompt q,
          hypothesizePrompt ⟨some q, some t1, none, none, none, none, none, none⟩,
          predictPrompt ⟨some q, some t1, some t2, none, none, none, none, none⟩,
          experimentPrompt ⟨some q, some t1, some t2, some t3, none, none, none, none⟩,
          generateDataPrompt ⟨some q, some t1, some t2, some t3, some t4, none, none, none⟩,
          analyzePrompt ⟨some q, some t1, some t2, some t3, some t4, some td, none, none⟩,
          concludePrompt ⟨some q, some t1, some t2, some t3, some t4, some td, some t5, none⟩],
         none⟩ := by
  cases e1 : o (observePrompt q) with
  | error e =>
      simp [run_full_method, stagesList, initState, initResults, List.foldl,
        stageStep, observe, hypothesize, predict, experiment,
        generate_experimental_data, analyze, conclude, e1] at h
  | ok t1 =>
  cases e2 : o (hypothesizePrompt ⟨some q, some t1, none, none, none, none, none, none⟩) with
  | error e =>
      simp [run_full_method, stagesList, initState, initResults, List.foldl,
        stageStep, observe, hypothesize, predict, experiment,
        generate_experimental_data, analyze, conclude, e1, e2] at h
  | ok t2 =>
  cases e3 : o (predictPrompt ⟨some q, some t1, some t2, none, none, none, none, none⟩) with
  | error e =>
      simp [run_full_method, stagesList, initState, initResults, List.foldl,
        stageStep, observe, hypothesize, predict, experiment,
        generate_experimental_data, analyze, conclude, e1, e2, e3] at h
  | ok t3 =>
  cases e4 : o (experimentPrompt ⟨some q, some t1, some t2, some t3, none, none, none, none⟩) with
  | error e =>
      simp [run_full_method, stagesList, initState, initResults, List.foldl,
        stageStep, observe, hypothesize, predict, experiment,
        generate_experimental_data, analyze, conclude, e1, e2, e3, e4] at h
  | ok t4 =>
  cases ed : o (generateDataPrompt ⟨some q, some t1, some t2, some t3, some t4, none, none, none⟩) with
  | error e =>
      simp [run_full_method, stagesList, initState, initResults, List.foldl,
        stageStep, observe, hypothesize, predict, experiment,
        generate_experimental_data, analyze, conclude, e1, e2, e3, e4, ed] at h
  | ok td =>
  cases e5 : o (analyzePrompt ⟨some q, some t1, some t2, some t3, some t4, some td, none, none⟩) with
  | error e =>
      simp [run_full_method, stagesList, initState, initResults, List.foldl,
        stageStep, observe, hypothesize, predict, experiment,
        generate_experimental_data, analyze, conclude, e1, e2, e3, e4, ed, e5] at h
  | ok t5 =>
  cases e6 : o (concludePrompt ⟨some q, some t1, some t2, some t3, some t4, some td, some t5, none⟩) with
  | error e =>
      simp [run_full_method, stagesList, initState, initResults, List.foldl,
        stageStep, observe, hypothesize, predict, experiment,
        generate_experimental_data, analyze, conclude, e1, e2, e3, e4, ed, e5, e6] at h
  | ok t6 =>
      refine ⟨t1, t2, t3, t4, td, t5, t6, ?_⟩
      simp [run_full_method, stagesList, initState, initResults, List.foldl,
        stageStep, observe, hypothesize, predict, experiment,
        generate_experimental_data, analyze, conclude, e1, e2, e3, e4, ed, e5, e6]

lemma dataContext_none (r : Results) (h : r.experimental_data = none) :
    dataContext r = noDataPlaceholder := by
  simp [dataContext, h]

lemma substr_placeholder (r : Results) (h : r.experimental_data = none) :
    Substr noDataPlaceholder (analyzePrompt r) :=
  ⟨analyzeHead r, analyzeTail, by rw [analyzePrompt_eq, dataContext, h]⟩

lemma substr_data (r : Results) (d : String) (h : r.experimental_data = some d) :
    Substr d (analyzePrompt r) := by
  by_cases hd : d = ""
  · exact ⟨analyzePrompt r, "", by rw [hd, str_append_empty, str_append_empty]⟩
  · refine ⟨analyzeHead r ++ "\nExperimental Results:\n", analyzeTail, ?_⟩
    rw [analyzePrompt_eq]
    simp only [dataContext, h, if_neg hd, String.append_assoc]

lemma resolve_empty_iff (flag positional envVar : Option String) :
    resolveQuestion flag positional envVar = "" ↔
      pyTruthy flag = false ∧ pyTruthy positional = false ∧
        env_question envVar = "" := by
  rcases flag with _ | f <;> rcases positional with _ | p
  · simp [resolveQuestion, pyOr, pyTruthy]
  · by_cases hp : p = "" <;> simp [resolveQuestion, pyOr, pyTruthy, hp]
  · by_cases hf : f = "" <;> simp [resolveQuestion, pyOr, pyTruthy, hf]
  · by_cases hf : f = "" <;> by_cases hp : p = "" <;>
      simp [resolveQuestion, pyOr, pyTruthy, hf, hp]

set_option maxRecDepth 4000

lemma main_usage_iff (flag positional envVar envKey : Option String)
    (gd : Bool) (o : Oracle) :
    main flag positional envVar envKey gd o = MainOutcome.usage ↔
      resolveQuestion flag positional envVar = "" := by
  by_cases h : resolveQuestion flag positional envVar = "" <;> simp [main, h]

/-- C1, counterexample: on a freshly created record, `observe` does not leave
every key but `observations` unchanged -- it also assigns `question` (source
line 62), so the claim as stated fails at this concrete input. -/
theorem observe_changes_question_on_fresh_record :
    (observe okOracle initResults "Is water wet?").1.question ≠
      initResults.question := by
  decide

/-- C1, amended: for every question string, a successful `observe` populates
exactly the `question` and `observations` keys; the other six keys keep their
prior values, and the response text is returned. -/
theorem observe_populates_question_and_observations (o : Oracle) (r : Results)
    (q t : String) (h : o (observePrompt q) = Except.ok t) :
    observe o r q =
      ({ r with question := some q, observations := some t }, observePrompt q,
        Except.ok t) :=
  observe_ok o r q t h

/-- C1, witness: the amended theorem applied to a concrete oracle, record and
question. -/
theorem observe_populates_question_and_observations_witness :
    observe okOracle initResults "Is water wet?" =
      ({ initResults with question := some "Is water wet?", observations := some "R" },
        observePrompt "Is water wet?", Except.ok "R") :=
  observe_populates_question_and_observations okOracle initResults "Is water wet?" "R" rfl

/-- C6, counterexample: `observe` given the empty question does not fail --
the external call is made, succeeds, and its result is stored under
`observations`, so the claim fails at this concrete input. -/
theorem observe_accepts_empty_question :
    (observe okOracle initResults "").2.2 = Except.ok "R" ∧
    (observe okOracle initResults "").1.observations = some "R" ∧
    (observe okOracle initResults "").1.question = some "" :=
  ⟨rfl, rfl, rfl⟩

/-- C6, amended: `observe` performs no validation of the question: with an
empty question it stores the empty string under `question`, issues the call,
and on success stores the response under `observations` as usual. -/
theorem observe_empty_question_proceeds (o : Oracle) (r : Results) (t : String)
    (h : o (observePrompt "") = Except.ok t) :
    observe o r "" =
      ({ r with question := some "", observations := some t }, observePrompt "",
        Except.ok t) :=
  observe_ok o r "" t h

/-- C6, witness: the amended theorem at a concrete oracle and record. -/
theorem observe_empty_question_proceeds_witness :
    observe okOracle initResults "" =
      ({ initResults with question := some "", observations := some "R" },
        observePrompt "", Except.ok "R") :=
  observe_empty_question_proceeds okOracle initResults "R" rfl

/-- C9: the conclusion prompt is a function of the `question`, `hypothesis`
and `analysis` fields only (two records agreeing on those three fields get
identical prompts, so neither `experimental_data` nor its placeholder can
enter the prompt through the construction), and a successful `conclude`
stores the response under `conclusion`, leaving every other key unchanged. -/
theorem conclude_prompt_three_fields_only (o : Oracle) (r r2 : Results) :
    (r.question = r2.question → r.hypothesis = r2.hypothesis →
      r.analysis = r2.analysis → concludePrompt r = concludePrompt r2) ∧
    (∀ t, o (concludePrompt r) = Except.ok t →
      conclude o r = ({ r with conclusion := some t }, concludePrompt r, Except.ok t)) := by
  constructor
  · intro h1 h2 h3
    simp [concludePrompt, h1, h2, h3]
  · intro t h
    exact conclude_ok o r t h

/-- C9, witness: the theorem applied to two concrete records differing in
`observations`, `predictions`, `experiments` and `experimental_data`, and to
a concrete successful call. -/
theorem conclude_prompt_three_fields_only_witness :
    concludePrompt initResults =
      concludePrompt ⟨none, some "O", none, some "P", some "E", some "D", none, none⟩ ∧
    conclude okOracle initResults =
      ({ initResults with conclusion := some "R" }, concludePrompt initResults,
        Except.ok "R") := by
  constructor
  · exact (conclude_prompt_three_fields_only okOracle initResults
      ⟨none, some "O", none, some "P", some "E", some "D", none, none⟩).1 rfl rfl rfl
  · exact (conclude_prompt_three_fields_only okOracle initResults initResults).2 "R" rfl

/-- C2: question resolution is the deterministic cascade flag, then
positional, then the environment fallback (`env_question`, which itself
defaults when the variable is absent); `main` exits with the usage error
exactly when the resolved question is empty, which happens exactly when flag
and positional are falsy and the environment fallback is empty; and the
usage outcome issues no external call. -/
theorem cli_question_priority (flag positional envVar envKey : Option String)
    (gd : Bool) (o : Oracle) :
    resolveQuestion flag positional envVar =
      (if pyTruthy flag then flag.getD "" else
       if pyTruthy positional then positional.getD "" else env_question envVar) ∧
    (main flag positional envVar envKey gd o = MainOutcome.usage ↔
      resolveQuestion flag positional envVar = "") ∧
    (resolveQuestion flag positional envVar = "" ↔
      pyTruthy flag = false ∧ pyTruthy positional = false ∧
        env_question envVar = "") ∧
    callsOf MainOutcome.usage = [] := by
  refine ⟨?_, main_usage_iff flag positional envVar envKey gd o,
    resolve_empty_iff flag positional envVar, rfl⟩
  rcases flag with _ | f <;> rcases positional with _ | p
  · simp [resolveQuestion, pyOr, pyTruthy]
  · by_cases hp : p = "" <;> simp [resolveQuestion, pyOr, pyTruthy, hp]
  · by_cases hf : f = "" <;> simp [resolveQuestion, pyOr, pyTruthy, hf]
  · by_cases hf : f = "" <;> by_cases hp : p = "" <;>
      simp [resolveQuestion, pyOr, pyTruthy, hf, hp]

/-- C10: an empty string supplied as the flag or the positional argument is
treated as absent (resolution is unchanged if it is replaced by `none`); the
environment fallback carries the built-in default question; and the usage
error is reached exactly when every source in the chain evaluates to an
empty or falsy string. -/
theorem cli_empty_string_falls_through (flag positional envVar envKey : Option String)
    (gd : Bool) (o : Oracle) :
    resolveQuestion (some "") positional envVar = resolveQuestion none positional envVar ∧
    resolveQuestion flag (some "") envVar = resolveQuestion flag none envVar ∧
    env_question none = "Does rapamycin increase lifespan?" ∧
    (main flag positional envVar envKey gd o = MainOutcome.usage ↔
      pyTruthy flag = false ∧ pyTruthy positional = false ∧
        env_question envVar = "") := by
  refine ⟨by simp [resolveQuestion, pyOr], by simp [resolveQuestion, pyOr], rfl, ?_⟩
  exact (main_usage_iff flag positional envVar envKey gd o).trans
    (resolve_empty_iff flag positional envVar)

/-- C7, counterexample: with the credential absent from the environment and a
question available, `main` does not exit with a usage message -- it
constructs the client with the absent key (`ranKey ... = some none`) and the
run proceeds to issue all seven external calls, so the claim fails at this
concrete input. -/
theorem missing_credential_no_usage_error :
    main none (some "Why is the sky blue?") none none true okOracle ≠
      MainOutcome.usage ∧
    (callsOf (main none (some "Why is the sky blue?") none none true okOracle)).length = 7 ∧
    ranKey (main none (some "Why is the sky blue?") none none true okOracle) =
      some none := by
  decide

/-- C7, amended: a missing API credential is not detected by the CLI code:
whenever a question resolves, `main` with no credential in the environment
proceeds past the usage check and runs the pipeline with a client holding no
key (any failure would come from the client library, outside this code). -/
theorem missing_credential_not_reported (flag positional envVar : Option String)
    (gd : Bool) (o : Oracle)
    (h : resolveQuestion flag positional envVar ≠ "") :
    main flag positional envVar none gd o =
      MainOutcome.ran none
        (run_full_method o (resolveQuestion flag positional envVar) gd) := by
  simp [main, h, initApiKey]

/-- C7, witness: the amended theorem at a concrete flag and oracle. -/
theorem missing_credential_not_reported_witness :
    main (some "Q?") none none none true okOracle =
      MainOutcome.ran none
        (run_full_method okOracle (resolveQuestion (some "Q?") none none) true) :=
  missing_credential_not_reported (some "Q?") none none true okOracle (by decide)

/-- C3: when `experimental_data` is absent the analysis prompt substitutes
the fixed placeholder sentence; when it is present its exact text occurs
verbatim inside the prompt (for the empty string through the placeholder
branch, trivially); and `analyze` sends exactly `analyzePrompt` to the
service. -/
theorem analyze_prompt_placeholder_and_data (r : Results) (o : Oracle) :
    (r.experimental_data = none →
      dataContext r = noDataPlaceholder ∧
        Substr noDataPlaceholder (analyzePrompt r)) ∧
    (∀ d, r.experimental_data = some d → Substr d (analyzePrompt r)) ∧
    (analyze o r).2.1 = analyzePrompt r := by
  refine ⟨fun h => ⟨dataContext_none r h, substr_placeholder r h⟩,
    fun d h => substr_data r d h, ?_⟩
  cases hc : o (analyzePrompt r) <;> simp [analyze, hc]

/-- C3, witness: the theorem applied to a record without data and to a record
holding the concrete text "DATA". -/
theorem analyze_prompt_placeholder_and_data_witness :
    Substr noDataPlaceholder (analyzePrompt initResults) ∧
    Substr "DATA"
      (analyzePrompt ⟨none, none, none, none, none, some "DATA", none, none⟩) := by
  constructor
  · exact ((analyze_prompt_placeholder_and_data initResults okOracle).1 rfl).2
  · exact (analyze_prompt_placeholder_and_data
      ⟨none, none, none, none, none, some "DATA", none, none⟩ okOracle).2.1 "DATA" rfl

/-- C4: in every run of `run_full_method` that completes without a
propagating exception, the record keys are populated as a full pipeline-order
prefix: all seven always-required keys are non-absent, and
`experimental_data` is non-absent exactly when data generation was enabled
(so no gap is ever followed by a populated later key). -/
theorem run_full_method_populates_in_order (o : Oracle) (q : String) (gd : Bool)
    (h : (run_full_method o q gd).err = none) :
    (run_full_method o q gd).record.question.isSome = true ∧
    (run_full_method o q gd).record.observations.isSome = true ∧
    (run_full_method o q gd).record.hypothesis.isSome = true ∧
    (run_full_method o q gd).record.predictions.isSome = true ∧
    (run_full_method o q gd).record.experiments.isSome = true ∧
    (run_full_method o q gd).record.analysis.isSome = true ∧
    (run_full_method o q gd).record.conclusion.isSome = true ∧
    (run_full_method o q gd).record.experimental_data.isSome = gd := by
  cases gd
  · obtain ⟨t1, t2, t3, t4, t5, t6, hr⟩ := run_ok_false o q h
    rw [hr]
    simp
  · obtain ⟨t1, t2, t3, t4, td, t5, t6, hr⟩ := run_ok_true o q h
    rw [hr]
    simp

/-- C4, witness: the theorem applied to a concrete completed run with data
generation enabled. -/
theorem run_full_method_populates_in_order_witness :
    (run_full_method okOracle "Q?" true).record.question.isSome = true ∧
    (run_full_method okOracle "Q?" true).record.observations.isSome = true ∧
    (run_full_method okOracle "Q?" true).record.hypothesis.isSome = true ∧
    (run_full_method okOracle "Q?" true).record.predictions.isSome = true ∧
    (run_full_method okOracle "Q?" true).record.experiments.isSome = true ∧
    (run_full_method okOracle "Q?" true).record.analysis.isSome = true ∧
    (run_full_method okOracle "Q?" true).record.conclusion.isSome = true ∧
    (run_full_method okOracle "Q?" true).record.experimental_data.isSome = true :=
  run_full_method_populates_in_order okOracle "Q?" true (by decide)

/-- C5: a completed run with data generation disabled yields a record where
`experimental_data` is absent and the other seven keys are populated, an
analysis call whose prompt contains the placeholder, a transcript whose
stage headers are exactly the six numbered ones with no "4b" header anywhere
in the log, and an export with exactly seven non-null keys and one null key. -/
theorem run_no_data_scenario (o : Oracle) (q : String)
    (h : (run_full_method o q false).err = none) :
    (run_full_method o q false).record.experimental_data = none ∧
    (run_full_method o q false).record.question.isSome = true ∧
    (run_full_method o q false).record.observations.isSome = true ∧
    (run_full_method o q false).record.hypothesis.isSome = true ∧
    (run_full_method o q false).record.predictions.isSome = true ∧
    (run_full_method o q false).record.experiments.isSome = true ∧
    (run_full_method o q false).record.analysis.isSome = true ∧
    (run_full_method o q false).record.conclusion.isSome = true ∧
    (∃ p, p ∈ (run_full_method o q false).calls ∧
      Substr noDataPlaceholder p) ∧
    (run_full_method o q false).log.filter isStageHeader =
      ["Step 1: Gathering observations...", "\nStep 2: Formulating hypothesis...",
       "\nStep 3: Generating predictions...", "\nStep 4: Designing experiments...",
       "\nStep 5: Analyzing results...", "\nStep 6: Drawing conclusions..."] ∧
    "\nStep 4b: Generating experimental data..." ∉ (run_full_method o q false).log ∧
    (exportPairs (run_full_method o q false).record).countP
      (fun kv => kv.2.isSome) = 7 ∧
    (exportPairs (run_full_method o q false).record).countP
      (fun kv => kv.2.isNone) = 1 := by
  obtain ⟨t1, t2, t3, t4, t5, t6, hr⟩ := run_ok_false o q h
  rw [hr]
  refine ⟨rfl, rfl, rfl, rfl, rfl, rfl, rfl, rfl, ?_, ?_, ?_, rfl, rfl⟩
  · refine ⟨analyzePrompt ⟨some q, some t1, some t2, some t3, some t4, none, none, none⟩,
      by simp, substr_placeholder _ rfl⟩
  · simp only [List.filter_cons, List.filter_nil, isStageHeader_ends_nl,
      isStageHeader_dash, isStageHeader_eqSep, isStageHeader_h1, isStageHeader_h2,
      isStageHeader_h3, isStageHeader_h4, isStageHeader_h5, isStageHeader_h6,
      Bool.false_eq_true, if_false, if_true]
  · intro hmem
    simp only [List.mem_cons, List.not_mem_nil, or_false] at hmem
    rcases hmem with hx | hx | hx | hx | hx | hx | hx | hx | hx | hx | hx | hx | hx |
      hx | hx | hx | hx | hx | hx <;>
      first
        | exact absurd hx (by decide)
        | (have hh := congrArg isStageHeader hx
           rw [isStageHeader_ends_nl] at hh
           exact absurd hh (by decide))

/-- C5, witness: the theorem applied to a concrete completed run on the
scenario question with data generation disabled. -/
theorem run_no_data_scenario_witness :
    (run_full_method okOracle "Does rapamycin increase lifespan?" false).record.experimental_data = none ∧
    (run_full_method okOracle "Does rapamycin increase lifespan?" false).record.question.isSome = true ∧
    (run_full_method okOracle "Does rapamycin increase lifespan?" false).record.observations.isSome = true ∧
    (run_full_method okOracle "Does rapamycin increase lifespan?" false).record.hypothesis.isSome = true ∧
    (run_full_method okOracle "Does rapamycin increase lifespan?" false).record.predictions.isSome = true ∧
    (run_full_method okOracle "Does rapamycin increase lifespan?" false).record.experiments.isSome = true ∧
    (run_full_method okOracle "Does rapamycin increase lifespan?" false).record.analysis.isSome = true ∧
    (run_full_method okOracle "Does rapamycin increase lifespan?" false).record.conclusion.isSome = true ∧
    (∃ p, p ∈ (run_full_method okOracle "Does rapamycin increase lifespan?" false).calls ∧
      Substr noDataPlaceholder p) ∧
    (run_full_method okOracle "Does rapamycin increase lifespan?" false).log.filter isStageHeader =
      ["Step 1: Gathering observations...", "\nStep 2: Formulating hypothesis...",
       "\nStep 3: Generating predictions...", "\nStep 4: Designing experiments...",
       "\nStep 5: Analyzing results...", "\nStep 6: Drawing conclusions..."] ∧
    "\nStep 4b: Generating experimental data..." ∉
      (run_full_method okOracle "Does rapamycin increase lifespan?" false).log ∧
    (exportPairs (run_full_method okOracle "Does rapamycin increase lifespan?" false).record).countP
      (fun kv => kv.2.isSome) = 7 ∧
    (exportPairs (run_full_method okOracle "Does rapamycin increase lifespan?" false).record).countP
      (fun kv => kv.2.isNone) = 1 :=
  run_no_data_scenario okOracle "Does rapamycin increase lifespan?" (by decide)

/-- C8, counterexample: with a service that fails from step 2 on, the run
aborts at step 2, yet the transcript log does contain an entry for that
uncompleted stage -- its header, logged before the call -- so "the log
contains entries only for completed stages" fails at this concrete input. -/
theorem failing_stage_header_logged :
    (run_full_method failAfterObserve "Q" true).err = some ⟨"boom"⟩ ∧
    "\nStep 2: Formulating hypothesis..." ∈
      (run_full_method failAfterObserve "Q" true).log ∧
    (run_full_method failAfterObserve "Q" true).record.hypothesis = none ∧
    (run_full_method failAfterObserve "Q" true).record.observations = some "OBS" := by
  refine ⟨by decide, by decide, by decide, by decide⟩

/-- C8, amended: a failing external call is caught nowhere: the run
terminates at the failing stage (the suffix of stages never runs), the final
record is exactly the record as the failing stage left it (the values of the
completed stages, plus `question` when the failing stage is `observe`, which
assigns it before its call), and the log is the completed stages' transcript
plus the header announcing the failing stage -- its output entry and
separator are never logged. -/
theorem run_full_method_failure_shape (o : Oracle) (q : String) (gd : Bool) (e : Err)
    (h : (run_full_method o q gd).err = some e) :
    ∃ l1 sg l2, stagesList o q gd = l1 ++ sg :: l2 ∧
      (l1.foldl stageStep (initState q)).err = none ∧
      (sg.method (l1.foldl stageStep (initState q)).record).2.2 = Except.error e ∧
      run_full_method o q gd =
        ⟨(sg.method (l1.foldl stageStep (initState q)).record).1,
         (l1.foldl stageStep (initState q)).log ++ [sg.header],
         (l1.foldl stageStep (initState q)).calls ++
           [(sg.method (l1.foldl stageStep (initState q)).record).2.1],
         some e⟩ :=
  foldl_err_split (stagesList o q gd) (initState q) e rfl h

/-- C8, witness: the amended theorem at a concrete oracle failing at step 2. -/
theorem run_full_method_failure_shape_witness :
    ∃ l1 sg l2, stagesList failAfterObserve "Q" true = l1 ++ sg :: l2 ∧
      (l1.foldl stageStep (initState "Q")).err = none ∧
      (sg.method (l1.foldl stageStep (initState "Q")).record).2.2 =
        Except.error ⟨"boom"⟩ ∧
      run_full_method failAfterObserve "Q" true =
        ⟨(sg.method (l1.foldl stageStep (initState "Q")).record).1,
         (l1.foldl stageStep (initState "Q")).log ++ [sg.header],
         (l1.foldl stageStep (initState "Q")).calls ++
           [(sg.method (l1.foldl stageStep (initState "Q")).record).2.1],
         some ⟨"boom"⟩⟩ :=
  run_full_method_failure_shape failAfterObserve "Q" true ⟨"boom"⟩ (by decide)

end SciMethod
